import Mathlib

/-!
Shallow embedding of the warg repository's session-lifecycle core
(src/browser.ts `BrowserManager`, src/server.ts `WargServer`).

The driver (puppeteer) is external and fallible: every driver call's outcome
is supplied by a `DriverOracle` value, and each operation returns, next to
the manager's new state and its result, the list of driver operations it
issued, in issue order.  `true` in a handle field models a non-null handle.
-/

namespace Warg

/-- State fields of `BrowserManager` (src/browser.ts 16-19): the nullable
`browser` and `page` handles (`true` = non-null) and the `isInitializing`
single-flight flag. -/
structure BMState where
  browser : Bool
  page : Bool
  isInitializing : Bool
deriving DecidableEq, Repr

/-- One driver (puppeteer) operation the manager can issue. -/
inductive DriverOp
  | launch
  | newPage
  | setViewport
  | goto (url : String)
  | click (selector : String)
  | typeText (selector text : String)
  | screenshot (fullPage : Bool)
  | evaluate (script : String)
  | reload
  | back
  | forward
  | pageClose
  | browserClose
  | title
deriving DecidableEq, Repr

/-- The kind-specific `data` payload of a successful `BrowserResponse`
(src/browser.ts: `{url}`, `{screenshot}` or `{result}`). -/
inductive RespData
  | url (u : String)
  | screenshot (b64 : String)
  | result (r : String)
deriving DecidableEq, Repr

/-- `BrowserResponse` (src/browser.ts 10-14). -/
structure BrowserResponse where
  success : Bool
  data : Option RespData
  error : Option String
deriving DecidableEq, Repr

/-- The fields of `command.data` the handlers read (src/browser.ts 125-189). -/
structure CommandData where
  url : String
  selector : String
  text : String
  script : String
  fullPage : Bool
deriving DecidableEq, Repr

/-- `BrowserCommand` (src/browser.ts 5-8).  `type` is a `String` because the
envelope arrives from JSON and the switch has a default branch for unknown
kinds. -/
structure BrowserCommand where
  type : String
  data : CommandData
deriving DecidableEq, Repr

/-- Outcome of every fallible driver call, supplied by the environment:
`Except.error e` models the call throwing an error with message `e`;
`url` models `page.url()` (a non-fallible read). -/
structure DriverOracle where
  launchRes : Except String Unit
  newPageRes : Except String Unit
  gotoRes : Except String Unit
  clickRes : Except String Unit
  typeRes : Except String Unit
  screenshotRes : Except String String
  evaluateRes : Except String String
  reloadRes : Except String Unit
  backRes : Except String Unit
  forwardRes : Except String Unit
  titleRes : Except String String
  pageCloseRes : Except String Unit
  browserCloseRes : Except String Unit
  url : String

/-- `BrowserManager.initialize` (src/browser.ts 21-85).  Guards: return at
once when `isInitializing` or when `browser` is non-null; otherwise launch,
open a page (the `newPageRes` outcome also covers `setViewport`); the catch
block nulls both handles and rethrows, the finally block clears the flag. -/
def initializeBrowser (s : BMState) (d : DriverOracle) :
    BMState × Except String Unit × List DriverOp :=
  if s.isInitializing then (s, Except.ok (), [])
  else if s.browser then (s, Except.ok (), [])
  else
    match d.launchRes with
    | Except.error e =>
        ({ browser := false, page := false, isInitializing := false },
          Except.error e, [DriverOp.launch])
    | Except.ok () =>
        match d.newPageRes with
        | Except.error e =>
            ({ browser := false, page := false, isInitializing := false },
              Except.error e, [DriverOp.launch, DriverOp.newPage])
        | Except.ok () =>
            ({ browser := true, page := true, isInitializing := false },
              Except.ok (),
              [DriverOp.launch, DriverOp.newPage, DriverOp.setViewport])

/-- `BrowserManager.close` (src/browser.ts 87-109).  Each handle is nulled
only after its own close call returns; a throwing close call is caught,
logged and rethrown, so the assignments after it never run. -/
def close (s : BMState) (d : DriverOracle) :
    BMState × Except String Unit × List DriverOp :=
  if s.page then
    match d.pageCloseRes with
    | Except.error e => (s, Except.error e, [DriverOp.pageClose])
    | Except.ok () =>
        let s1 : BMState := { s with page := false }
        if s1.browser then
          match d.browserCloseRes with
          | Except.error e =>
              (s1, Except.error e, [DriverOp.pageClose, DriverOp.browserClose])
          | Except.ok () =>
              ({ s1 with browser := false }, Except.ok (),
                [DriverOp.pageClose, DriverOp.browserClose])
        else (s1, Except.ok (), [DriverOp.pageClose])
  else if s.browser then
    match d.browserCloseRes with
    | Except.error e => (s, Except.error e, [DriverOp.browserClose])
    | Except.ok () =>
        ({ s with browser := false }, Except.ok (), [DriverOp.browserClose])
  else (s, Except.ok (), [])

/-- `BrowserManager.executeCommand` (src/browser.ts 111-209): early failed
response when `page` is null, then the switch on `command.type`; every driver
failure inside the try block is caught and returned as a failed response. -/
def executeCommand (s : BMState) (cmd : BrowserCommand) (d : DriverOracle) :
    BMState × BrowserResponse × List DriverOp :=
  if !s.page then
    (s, { success := false, data := none, error := some "Browser not initialized" }, [])
  else if cmd.type = "navigate" then
    match d.gotoRes with
    | Except.ok () =>
        (s, { success := true, data := some (RespData.url d.url), error := none },
          [DriverOp.goto cmd.data.url])
    | Except.error e =>
        (s, { success := false, data := none, error := some e },
          [DriverOp.goto cmd.data.url])
  else if cmd.type = "click" then
    match d.clickRes with
    | Except.ok () =>
        (s, { success := true, data := none, error := none },
          [DriverOp.click cmd.data.selector])
    | Except.error e =>
        (s, { success := false, data := none, error := some e },
          [DriverOp.click cmd.data.selector])
  else if cmd.type = "type" then
    match d.typeRes with
    | Except.ok () =>
        (s, { success := true, data := none, error := none },
          [DriverOp.typeText cmd.data.selector cmd.data.text])
    | Except.error e =>
        (s, { success := false, data := none, error := some e },
          [DriverOp.typeText cmd.data.selector cmd.data.text])
  else if cmd.type = "screenshot" then
    match d.screenshotRes with
    | Except.ok b64 =>
        (s, { success := true, data := some (RespData.screenshot b64), error := none },
          [DriverOp.screenshot cmd.data.fullPage])
    | Except.error e =>
        (s, { success := false, data := none, error := some e },
          [DriverOp.screenshot cmd.data.fullPage])
  else if cmd.type = "evaluate" then
    match d.evaluateRes with
    | Except.ok r =>
        (s, { success := true, data := some (RespData.result r), error := none },
          [DriverOp.evaluate cmd.data.script])
    | Except.error e =>
        (s, { success := false, data := none, error := some e },
          [DriverOp.evaluate cmd.data.script])
  else if cmd.type = "reload" then
    match d.reloadRes with
    | Except.ok () =>
        (s, { success := true, data := some (RespData.url d.url), error := none },
          [DriverOp.reload])
    | Except.error e =>
        (s, { success := false, data := none, error := some e }, [DriverOp.reload])
  else if cmd.type = "back" then
    match d.backRes with
    | Except.ok () =>
        (s, { success := true, data := some (RespData.url d.url), error := none },
          [DriverOp.back])
    | Except.error e =>
        (s, { success := false, data := none, error := some e }, [DriverOp.back])
  else if cmd.type = "forward" then
    match d.forwardRes with
    | Except.ok () =>
        (s, { success := true, data := some (RespData.url d.url), error := none },
          [DriverOp.forward])
    | Except.error e =>
        (s, { success := false, data := none, error := some e }, [DriverOp.forward])
  else
    (s, { success := false, data := none,
          error := some ("Unknown command type: " ++ cmd.type) }, [])

/-- The `{title, url}` snapshot `getPageInfo` returns. -/
structure PageInfo where
  title : String
  url : String
deriving DecidableEq, Repr

/-- `BrowserManager.getPageInfo` (src/browser.ts 211-230): null when `page`
is null or when reading the title fails; never throws. -/
def getPageInfo (s : BMState) (d : DriverOracle) :
    BMState × Option PageInfo × List DriverOp :=
  if !s.page then (s, none, [])
  else
    match d.titleRes with
    | Except.ok t => (s, some { title := t, url := d.url }, [DriverOp.title])
    | Except.error _ => (s, none, [DriverOp.title])

/-- `BrowserManager.isInitialized` (src/browser.ts 232-234). -/
def isInitialized (s : BMState) : Bool := s.browser && s.page

/-- The command kinds of the switch in `executeCommand` (src/browser.ts 5-6). -/
def knownCommandTypes : List String :=
  ["navigate", "click", "type", "screenshot", "evaluate", "reload", "back", "forward"]

/-!
Cooperative-scheduler model of `initialize` (for the single-flight claim).
Under node's single-threaded event loop the code between two `await`s runs
atomically.  `initialize`'s guard checks, the setting of `isInitializing`
and the issuing of the launch all happen before the first suspension point;
the launch and the page setup are the suspension points.  An event is one
such atomic segment; the environment chooses the interleaving and outcomes.
-/

/-- Where an in-progress `initialize` attempt stands. -/
inductive Phase
  | idle
  | launching
  | settingUp
deriving DecidableEq, Repr

/-- Scheduler state: the manager's fields, the phase of the in-progress
attempt, and how many driver launches are issued but not completed. -/
structure SchedState where
  mgr : BMState
  phase : Phase
  launchesInFlight : Nat
deriving DecidableEq, Repr

/-- One atomic segment: a new `initialize()` call arriving (its synchronous
prefix), the launch completing (ok or throwing), or the page setup
completing (ok or throwing, covering the catch and finally blocks). -/
inductive InitEvent
  | callInit
  | launchDone (ok : Bool)
  | pageSetupDone (ok : Bool)
deriving DecidableEq, Repr

/-- The transition each atomic segment makes, following src/browser.ts
21-85 line by line. -/
def stepInit (σ : SchedState) (e : InitEvent) : SchedState :=
  match e with
  | InitEvent.callInit =>
      if σ.mgr.isInitializing then σ
      else if σ.mgr.browser then σ
      else
        { mgr := { σ.mgr with isInitializing := true }, phase := Phase.launching,
          launchesInFlight := σ.launchesInFlight + 1 }
  | InitEvent.launchDone ok =>
      if σ.phase = Phase.launching then
        if ok then
          { mgr := { σ.mgr with browser := true }, phase := Phase.settingUp,
            launchesInFlight := σ.launchesInFlight - 1 }
        else
          { mgr := { browser := false, page := false, isInitializing := false },
            phase := Phase.idle, launchesInFlight := σ.launchesInFlight - 1 }
      else σ
  | InitEvent.pageSetupDone ok =>
      if σ.phase = Phase.settingUp then
        if ok then
          { mgr := { browser := true, page := true, isInitializing := false },
            phase := Phase.idle, launchesInFlight := σ.launchesInFlight }
        else
          { mgr := { browser := false, page := false, isInitializing := false },
            phase := Phase.idle, launchesInFlight := σ.launchesInFlight }
      else σ

/-- The fresh manager: both handles null, flag clear, nothing in flight. -/
def initialSched : SchedState :=
  { mgr := { browser := false, page := false, isInitializing := false },
    phase := Phase.idle, launchesInFlight := 0 }

/-- Run a sequence of atomic segments from the fresh manager. -/
def runEvents (evs : List InitEvent) : SchedState :=
  evs.foldl stepInit initialSched

/-- Inductive invariant of the scheduler model: the in-flight launch count
matches the phase, and `isInitializing` is set exactly while an attempt is
in progress. -/
def SchedInv (σ : SchedState) : Prop :=
  σ.launchesInFlight = (if σ.phase = Phase.launching then 1 else 0) ∧
  (σ.mgr.isInitializing = true ↔ σ.phase ≠ Phase.idle)

/-!
Multi-client channel model (src/server.ts).  An observer is a WebSocket,
identified by `id`; `isOpen` models `readyState === WebSocket.OPEN`.  A send
is a pair (socket id, message).
-/

/-- A connected WebSocket client. -/
structure WS where
  id : Nat
  isOpen : Bool
deriving DecidableEq, Repr

/-- The server-to-client message shapes the claims mention: the connect
status snapshot (src/server.ts 177-183), the direct `command_result` and the
derived `command_executed` notification (src/server.ts 262-275). -/
inductive ServerMsg
  | statusSnapshot (initialized : Bool) (connectedClients : Nat)
  | commandResult (data : BrowserResponse) (id : Option String)
  | commandExecuted (command : String) (result : BrowserResponse)
deriving DecidableEq, Repr

/-- `WargServer.broadcastToClients` (src/server.ts 316-324): send to every
registered client that is not the excluded one and whose connection is
open. -/
def broadcastToClients (clients : List WS) (msg : ServerMsg) (exclude : Option Nat) :
    List (Nat × ServerMsg) :=
  clients.filterMap fun c =>
    if exclude ≠ some c.id ∧ c.isOpen = true then some (c.id, msg) else none

/-- The `command` branch of `WargServer.handleWebSocketMessage`
(src/server.ts 262-275): run the command, send the issuer its direct
`command_result` (echoing the message id), then broadcast a
`command_executed` notification excluding the issuer. -/
def handleWSCommand (mgr : BMState) (d : DriverOracle) (clients : List WS) (ws : WS)
    (msgId : Option String) (cmd : BrowserCommand) : List (Nat × ServerMsg) :=
  let result := (executeCommand mgr cmd d).2.1
  (ws.id, ServerMsg.commandResult result msgId) ::
    broadcastToClients clients (ServerMsg.commandExecuted cmd.type result) (some ws.id)

/-- The connection handler (src/server.ts 166-183): add the socket to the
set, then send it one status snapshot whose client count is read from the
set after the add. -/
def onConnection (mgr : BMState) (clients : List WS) (ws : WS) :
    List WS × List (Nat × ServerMsg) :=
  let clients2 := if ws ∈ clients then clients else clients ++ [ws]
  (clients2,
    [(ws.id, ServerMsg.statusSnapshot (isInitialized mgr) clients2.length)])

/-!
Concrete values used to instantiate theorems with hypotheses.
-/

/-- An oracle on which every driver call succeeds. -/
def allOk : DriverOracle :=
  { launchRes := Except.ok (), newPageRes := Except.ok (), gotoRes := Except.ok ()
    clickRes := Except.ok (), typeRes := Except.ok ()
    screenshotRes := Except.ok "img", evaluateRes := Except.ok "42"
    reloadRes := Except.ok (), backRes := Except.ok (), forwardRes := Except.ok ()
    titleRes := Except.ok "Example", pageCloseRes := Except.ok ()
    browserCloseRes := Except.ok (), url := "https://example.com/" }

/-- An oracle on which the page-level close call throws. -/
def pageCloseFails : DriverOracle :=
  { allOk with pageCloseRes := Except.error "boom" }

/-- A sample well-formed navigate envelope. -/
def navCmd : BrowserCommand :=
  { type := "navigate"
    data := { url := "https://example.com/", selector := "", text := ""
              script := "", fullPage := false } }

/-- An envelope whose kind is outside the enumerated set. -/
def teleportCmd : BrowserCommand :=
  { type := "teleport"
    data := { url := "", selector := "", text := "", script := "", fullPage := false } }

/-- C3: executeCommand called while the page handle is null returns the
failed not-initialized response immediately, issues no driver operation,
and leaves the state unchanged. -/
theorem executeCommand_not_ready (s : BMState) (cmd : BrowserCommand) (d : DriverOracle)
    (h : s.page = false) :
    executeCommand s cmd d =
      (s, { success := false, data := none, error := some "Browser not initialized" },
        []) := by
  simp [executeCommand, h]

/-- Witness for C3 at the fresh state and a navigate envelope. -/
theorem executeCommand_not_ready_witness :
    executeCommand { browser := false, page := false, isInitializing := false } navCmd allOk =
      ({ browser := false, page := false, isInitializing := false },
        { success := false, data := none, error := some "Browser not initialized" }, []) :=
  executeCommand_not_ready _ _ _ rfl

/-- C5: close on the Uninitialized state (both handles null) is a no-op
success that issues no driver teardown operation. -/
theorem close_noop_when_uninitialized (i : Bool) (d : DriverOracle) :
    close { browser := false, page := false, isInitializing := i } d =
      ({ browser := false, page := false, isInitializing := i }, Except.ok (), []) := by
  simp [close]

/-- C6: an envelope whose kind is outside the enumerated set, executed while
the page handle is live, yields a failed response carrying the
unknown-command error, leaves the state unchanged, and issues no driver
operation. -/
theorem executeCommand_unknown_kind (s : BMState) (cmd : BrowserCommand) (d : DriverOracle)
    (hp : s.page = true) (hk : cmd.type ∉ knownCommandTypes) :
    executeCommand s cmd d =
      (s, { success := false, data := none,
            error := some ("Unknown command type: " ++ cmd.type) }, []) := by
  simp only [knownCommandTypes, List.mem_cons, List.not_mem_nil, or_false, not_or] at hk
  obtain ⟨h1, h2, h3, h4, h5, h6, h7, h8⟩ := hk
  simp [executeCommand, hp, h1, h2, h3, h4, h5, h6, h7, h8]

/-- Witness for C6 at the ready state and the teleport envelope. -/
theorem executeCommand_unknown_kind_witness :
    executeCommand { browser := true, page := true, isInitializing := false }
        teleportCmd allOk =
      ({ browser := true, page := true, isInitializing := false },
        { success := false, data := none,
          error := some ("Unknown command type: " ++ "teleport") }, []) :=
  executeCommand_unknown_kind _ _ _ rfl (by decide)

/-- C7: teardown from the fully live state issues the page-level close
first; the session-level close is issued only after the page-level close
has completed successfully, and never before it. -/
theorem close_page_before_browser (s : BMState) (d : DriverOracle) (e : String)
    (hp : s.page = true) (hb : s.browser = true) :
    (d.pageCloseRes = Except.ok () →
      (close s d).2.2 = [DriverOp.pageClose, DriverOp.browserClose]) ∧
    (d.pageCloseRes = Except.error e → (close s d).2.2 = [DriverOp.pageClose]) := by
  constructor
  · intro h
    cases hbr : d.browserCloseRes <;> simp [close, hp, hb, h, hbr]
  · intro h
    simp [close, hp, h]

/-- Witness for C7 at the fully live state with all releases succeeding. -/
theorem close_page_before_browser_witness :
    (close { browser := true, page := true, isInitializing := false } allOk).2.2 =
      [DriverOp.pageClose, DriverOp.browserClose] :=
  (close_page_before_browser _ _ "x" rfl rfl).1 rfl

/-- C10: executeCommand and getPageInfo never modify the manager's state
fields: the state after each call equals the state before it, for every
envelope, oracle and starting state. -/
theorem executeCommand_getPageInfo_frame (s : BMState) (cmd : BrowserCommand)
    (d : DriverOracle) :
    (executeCommand s cmd d).1 = s ∧ (getPageInfo s d).1 = s := by
  constructor
  · unfold executeCommand
    repeat' split
    all_goals rfl
  · unfold getPageInfo
    repeat' split
    all_goals rfl

/-- An oracle on which the driver launch throws (for example on timeout). -/
def launchFails : DriverOracle :=
  { allOk with launchRes := Except.error "launch timeout" }

/-- C4: a launch failure (or a failure while opening the page) inside
initialize resets the state to Uninitialized — both handles null and the
initializing flag clear — surfaces the error to the caller, and a
subsequent initialize from that state issues a fresh launch. -/
theorem init_failure_resets (s : BMState) (d : DriverOracle) (e : String)
    (hI : s.isInitializing = false) (hB : s.browser = false) :
    (d.launchRes = Except.error e →
      initializeBrowser s d =
        ({ browser := false, page := false, isInitializing := false },
          Except.error e, [DriverOp.launch])) ∧
    (d.launchRes = Except.ok () → d.newPageRes = Except.error e →
      initializeBrowser s d =
        ({ browser := false, page := false, isInitializing := false },
          Except.error e, [DriverOp.launch, DriverOp.newPage])) ∧
    (∀ d2 : DriverOracle,
      (initializeBrowser
          { browser := false, page := false, isInitializing := false } d2).2.2.head? =
        some DriverOp.launch) := by
  refine ⟨?_, ?_, ?_⟩
  · intro h
    simp [initializeBrowser, hI, hB, h]
  · intro h1 h2
    simp [initializeBrowser, hI, hB, h1, h2]
  · intro d2
    cases hL : d2.launchRes with
    | error e2 => simp [initializeBrowser, hL]
    | ok u =>
        cases u
        cases hN : d2.newPageRes with
        | error e2 => simp [initializeBrowser, hL, hN]
        | ok u2 => cases u2; simp [initializeBrowser, hL, hN]

/-- Witness for C4 at the fresh state and a failing launch. -/
theorem init_failure_resets_witness :
    initializeBrowser { browser := false, page := false, isInitializing := false }
        launchFails =
      ({ browser := false, page := false, isInitializing := false },
        Except.error "launch timeout", [DriverOp.launch]) :=
  (init_failure_resets _ _ "launch timeout" rfl rfl).1 rfl

/-- C1 counterexample: from the fully live state, a close whose page-level
release throws returns with both handles still non-null — the state does
not reach Uninitialized — and rethrows the error to the caller. -/
theorem close_counterexample :
    close { browser := true, page := true, isInitializing := false } pageCloseFails =
      ({ browser := true, page := true, isInitializing := false },
        Except.error "boom", [DriverOp.pageClose]) ∧
    ({ browser := true, page := true, isInitializing := false } : BMState) ≠
      { browser := false, page := false, isInitializing := false } := by
  constructor
  · rfl
  · decide

/-- C1 amended: close reaches Uninitialized whenever the release calls it
issues succeed; when a release call throws, close surfaces that error to
the caller, the handles not yet released stay non-null, and the close calls
after the failing one are never issued — the state can stop short of
Uninitialized. -/
theorem close_teardown (s : BMState) (d : DriverOracle) :
    (d.pageCloseRes = Except.ok () → d.browserCloseRes = Except.ok () →
      (close s d).1 = { browser := false, page := false,
                        isInitializing := s.isInitializing } ∧
      (close s d).2.1 = Except.ok ()) ∧
    (∀ e, s.page = true → d.pageCloseRes = Except.error e →
      close s d = (s, Except.error e, [DriverOp.pageClose])) ∧
    (∀ e, s.page = true → d.pageCloseRes = Except.ok () → s.browser = true →
      d.browserCloseRes = Except.error e →
      close s d = ({ s with page := false }, Except.error e,
        [DriverOp.pageClose, DriverOp.browserClose])) ∧
    (∀ e, s.page = false → s.browser = true → d.browserCloseRes = Except.error e →
      close s d = (s, Except.error e, [DriverOp.browserClose])) := by
  obtain ⟨b, p, i⟩ := s
  refine ⟨?_, ?_, ?_, ?_⟩
  · intro h1 h2
    cases p <;> cases b <;> simp [close, h1, h2]
  · intro e hp h
    subst hp
    simp [close, h]
  · intro e hp h1 hb h2
    subst hp; subst hb
    simp [close, h1, h2]
  · intro e hp hb h
    subst hp; subst hb
    simp [close, h]

/-- The fresh scheduler state satisfies the invariant. -/
theorem schedInv_initial : SchedInv initialSched := by
  constructor <;> simp [initialSched, SchedInv]

/-- Every atomic segment preserves the scheduler invariant. -/
theorem schedInv_step (σ : SchedState) (e : InitEvent) (h : SchedInv σ) :
    SchedInv (stepInit σ e) := by
  obtain ⟨h1, h2⟩ := h
  cases e with
  | callInit =>
      cases hi : σ.mgr.isInitializing with
      | true => simpa [stepInit, hi] using ⟨h1, h2⟩
      | false =>
          have hidle : σ.phase = Phase.idle := by
            by_contra hne
            exact absurd (h2.mpr hne) (by simp [hi])
          have hlif : σ.launchesInFlight = 0 := by simpa [hidle] using h1
          cases hb : σ.mgr.browser with
          | true => simpa [stepInit, hi, hb] using ⟨h1, h2⟩
          | false =>
              refine ⟨?_, ?_⟩ <;> simp [stepInit, hi, hb, SchedInv, hlif]
  | launchDone ok =>
      cases hph : σ.phase with
      | launching =>
          have hlif : σ.launchesInFlight = 1 := by simpa [hph] using h1
          have hinit : σ.mgr.isInitializing = true := h2.mpr (by simp [hph])
          cases ok <;> refine ⟨?_, ?_⟩ <;>
            simp [stepInit, hph, hlif, hinit, SchedInv]
      | idle => simpa [stepInit, hph] using ⟨h1, h2⟩
      | settingUp => simpa [stepInit, hph] using ⟨h1, h2⟩
  | pageSetupDone ok =>
      cases hph : σ.phase with
      | settingUp =>
          have hlif : σ.launchesInFlight = 0 := by simpa [hph] using h1
          cases ok <;> refine ⟨?_, ?_⟩ <;> simp [stepInit, hph, SchedInv, hlif]
      | idle => simpa [stepInit, hph] using ⟨h1, h2⟩
      | launching => simpa [stepInit, hph] using ⟨h1, h2⟩

/-- The invariant holds after every event sequence from the fresh state. -/
theorem schedInv_run (evs : List InitEvent) : SchedInv (runEvents evs) := by
  have key : ∀ (l : List InitEvent) (σ : SchedState),
      SchedInv σ → SchedInv (l.foldl stepInit σ) := by
    intro l
    induction l with
    | nil => intro σ h; exact h
    | cons a t ih => intro σ h; exact ih _ (schedInv_step σ a h)
  exact key evs initialSched schedInv_initial

/-- C2: under the cooperative scheduler, after any sequence of atomic
segments at most one driver launch is in flight; a call arriving while an
initialization is in progress changes nothing (no second launch), a call
arriving while the session is already initialized changes nothing, and the
corresponding initialize guards return a no-op success with no driver
operation issued. -/
theorem single_flight (evs : List InitEvent) :
    (runEvents evs).launchesInFlight ≤ 1 ∧
    (∀ σ : SchedState, σ.mgr.isInitializing = true →
      stepInit σ InitEvent.callInit = σ) ∧
    (∀ σ : SchedState, σ.mgr.isInitializing = false → σ.mgr.browser = true →
      stepInit σ InitEvent.callInit = σ) ∧
    (∀ (s : BMState) (d : DriverOracle), s.isInitializing = true →
      initializeBrowser s d = (s, Except.ok (), [])) ∧
    (∀ (s : BMState) (d : DriverOracle), s.isInitializing = false → s.browser = true →
      initializeBrowser s d = (s, Except.ok (), [])) := by
  refine ⟨?_, ?_, ?_, ?_, ?_⟩
  · have h := (schedInv_run evs).1
    rw [h]
    split <;> simp
  · intro σ h
    simp [stepInit, h]
  · intro σ h1 h2
    simp [stepInit, h1, h2]
  · intro s d h
    simp [initializeBrowser, h]
  · intro s d h1 h2
    simp [initializeBrowser, h1, h2]

/-- Unfolding of broadcast over one more registered client. -/
theorem broadcastToClients_cons (c : WS) (t : List WS) (msg : ServerMsg)
    (ex : Option Nat) :
    broadcastToClients (c :: t) msg ex =
      if ex ≠ some c.id ∧ c.isOpen = true
      then (c.id, msg) :: broadcastToClients t msg ex
      else broadcastToClients t msg ex := by
  by_cases hc : ex ≠ some c.id ∧ c.isOpen = true
  · simp [broadcastToClients, List.filterMap_cons, hc]
  · simp [broadcastToClients, List.filterMap_cons, hc]

/-- Broadcast with an exclusion never sends to the excluded socket id. -/
theorem broadcast_none_to_excluded (clients : List WS) (msg : ServerMsg) (x : Nat) :
    (broadcastToClients clients msg (some x)).filter (fun p => p.1 == x) = [] := by
  induction clients with
  | nil => rfl
  | cons c t ih =>
      rw [broadcastToClients_cons]
      by_cases hc : (some x : Option Nat) ≠ some c.id ∧ c.isOpen = true
      · have hne : c.id ≠ x := fun he => hc.1 (by rw [he])
        rw [if_pos hc, List.filter_cons_of_neg, ih]
        simpa using hne
      · rw [if_neg hc, ih]

/-- Broadcast sends nothing to an id absent from the registered set. -/
theorem broadcast_none_to_absent (clients : List WS) (msg : ServerMsg) (ex : Option Nat)
    (x : Nat) (hx : x ∉ clients.map WS.id) :
    (broadcastToClients clients msg ex).filter (fun p => p.1 == x) = [] := by
  induction clients with
  | nil => rfl
  | cons c t ih =>
      simp only [List.map_cons, List.mem_cons, not_or] at hx
      obtain ⟨hx1, hx2⟩ := hx
      have hne : c.id ≠ x := fun he => hx1 he.symm
      rw [broadcastToClients_cons]
      by_cases hc : ex ≠ some c.id ∧ c.isOpen = true
      · rw [if_pos hc, List.filter_cons_of_neg, ih hx2]
        simpa using hne
      · rw [if_neg hc, ih hx2]

/-- A registered, non-excluded, open client receives the broadcast message
exactly once (ids are distinct, as elements of a set). -/
theorem broadcast_one_to_member (clients : List WS) (msg : ServerMsg) (ex : Option Nat)
    (c : WS) (hnd : (clients.map WS.id).Nodup) (hc : c ∈ clients)
    (hex : ex ≠ some c.id) (hopen : c.isOpen = true) :
    (broadcastToClients clients msg ex).filter (fun p => p.1 == c.id) = [(c.id, msg)] := by
  induction clients with
  | nil => cases hc
  | cons a t ih =>
      simp only [List.map_cons, List.nodup_cons] at hnd
      obtain ⟨ha, hndt⟩ := hnd
      rcases List.mem_cons.mp hc with hca | hct
      · subst hca
        rw [broadcastToClients_cons, if_pos ⟨hex, hopen⟩, List.filter_cons_of_pos,
          broadcast_none_to_absent t msg ex c.id ha]
        simp
      · have hane : a.id ≠ c.id := fun he =>
          ha (he ▸ List.mem_map_of_mem WS.id hct)
        rw [broadcastToClients_cons]
        by_cases hcond : ex ≠ some a.id ∧ a.isOpen = true
        · rw [if_pos hcond, List.filter_cons_of_neg, ih hndt hct]
          simpa using hane
        · rw [if_neg hcond, ih hndt hct]

/-- C8: when a registered observer issues a command over the channel, it
receives exactly one message — the direct command result echoing its
message id — and every other registered observer whose connection is open
receives exactly one message, the derived command-executed notification;
the issuer never receives that notification. -/
theorem command_broadcast_exclusion (mgr : BMState) (d : DriverOracle)
    (clients : List WS) (ws : WS) (msgId : Option String) (cmd : BrowserCommand)
    (hnd : (clients.map WS.id).Nodup) :
    ((handleWSCommand mgr d clients ws msgId cmd).filter (fun p => p.1 == ws.id) =
      [(ws.id, ServerMsg.commandResult (executeCommand mgr cmd d).2.1 msgId)]) ∧
    (∀ c ∈ clients, c.id ≠ ws.id → c.isOpen = true →
      (handleWSCommand mgr d clients ws msgId cmd).filter (fun p => p.1 == c.id) =
        [(c.id, ServerMsg.commandExecuted cmd.type (executeCommand mgr cmd d).2.1)]) := by
  constructor
  · simpa [handleWSCommand, List.filter_cons]
      using broadcast_none_to_excluded clients
        (ServerMsg.commandExecuted cmd.type (executeCommand mgr cmd d).2.1) ws.id
  · intro c hc hne hopen
    have hwne : (ws.id == c.id) = false := by
      simp only [beq_eq_false_iff_ne, ne_eq]
      intro he
      exact hne he.symm
    have hex : (some ws.id : Option Nat) ≠ some c.id := by
      intro he
      exact hne (Option.some.inj he).symm
    simpa [handleWSCommand, List.filter_cons, hwne]
      using broadcast_one_to_member clients
        (ServerMsg.commandExecuted cmd.type (executeCommand mgr cmd d).2.1)
        (some ws.id) c hnd hc hex hopen

/-- Witness for C8: two open observers, observer 1 issues a navigate
command; observer 1 gets the direct result only, observer 2 the derived
notification only. -/
theorem command_broadcast_exclusion_witness :
    ((handleWSCommand { browser := true, page := true, isInitializing := false } allOk
        [{ id := 1, isOpen := true }, { id := 2, isOpen := true }]
        { id := 1, isOpen := true } (some "req-1") navCmd).filter (fun p => p.1 == 1) =
      [(1, ServerMsg.commandResult
        (executeCommand { browser := true, page := true, isInitializing := false }
          navCmd allOk).2.1 (some "req-1"))]) ∧
    ((handleWSCommand { browser := true, page := true, isInitializing := false } allOk
        [{ id := 1, isOpen := true }, { id := 2, isOpen := true }]
        { id := 1, isOpen := true } (some "req-1") navCmd).filter (fun p => p.1 == 2) =
      [(2, ServerMsg.commandExecuted "navigate"
        (executeCommand { browser := true, page := true, isInitializing := false }
          navCmd allOk).2.1)]) := by
  have h := command_broadcast_exclusion
    { browser := true, page := true, isInitializing := false } allOk
    [{ id := 1, isOpen := true }, { id := 2, isOpen := true }]
    { id := 1, isOpen := true } (some "req-1") navCmd (by decide)
  exact ⟨h.1, h.2 { id := 2, isOpen := true } (by decide) (by decide) rfl⟩

/-- C9: registering a new observer adds it to the live set and immediately
sends it exactly one status snapshot, carrying the current initialized
value and a client count that already includes the new observer. -/
theorem register_snapshot (mgr : BMState) (clients : List WS) (ws : WS)
    (h : ws ∉ clients) :
    onConnection mgr clients ws =
      (clients ++ [ws],
        [(ws.id, ServerMsg.statusSnapshot (isInitialized mgr) (clients.length + 1))]) ∧
    ws ∈ (onConnection mgr clients ws).1 := by
  constructor
  · simp [onConnection, h]
  · simp [onConnection, h]

/-- Witness for C9: a fresh observer joins a one-observer registry and gets
the snapshot counting both. -/
theorem register_snapshot_witness :
    onConnection { browser := false, page := false, isInitializing := false }
        [{ id := 3, isOpen := true }] { id := 7, isOpen := true } =
      ([{ id := 3, isOpen := true }, { id := 7, isOpen := true }],
        [(7, ServerMsg.statusSnapshot false 2)]) ∧
    ({ id := 7, isOpen := true } : WS) ∈
      (onConnection { browser := false, page := false, isInitializing := false }
        [{ id := 3, isOpen := true }] { id := 7, isOpen := true }).1 :=
  register_snapshot _ _ _ (by decide)

end Warg
